import Mathlib

/-!
Verification of the debt-to-GDP projection engine in `debt_app.py`.

The script reads six percentage-valued inputs from sidebar controls,
converts them to fractions, iterates the government-budget-constraint
recurrence for 20 years, and derives summary metrics and a
classification from the resulting trajectory.  All arithmetic is
modelled over `ℚ`; Python's float division raises `ZeroDivisionError`
when the divisor is zero, which is modelled with `Except`.
-/

namespace DebtApp

/-- Error raised by Python when a float division has divisor zero. -/
inductive DivErr : Type
  | divisionByZero : DivErr
deriving DecidableEq

/-- One iteration of the loop body (lines 56-66 of `debt_app.py`):
`next_d = (numerator / denominator) * current_d + primary_deficit` with
`numerator = 1 + i`, `denominator = (1+g)*(1+pi)`, `primary_deficit = s - tau`.
Python raises `ZeroDivisionError` when `denominator` is zero. -/
def stepE (i g pi tau s cur : ℚ) : Except DivErr ℚ :=
  if (1 + g) * (1 + pi) = 0 then Except.error DivErr.divisionByZero
  else Except.ok (((1 + i) / ((1 + g) * (1 + pi))) * cur + (s - tau))

/-- The `for year in range(1, years + 1)` loop: carries `current_d` and the
accumulated `debt_trajectory` list, appending `next_d` each iteration. -/
def debtLoop (i g pi tau s : ℚ) : ℕ → ℚ → List ℚ → Except DivErr (List ℚ)
  | 0, _, acc => Except.ok acc
  | n + 1, cur, acc =>
    match stepE i g pi tau s cur with
    | Except.error e => Except.error e
    | Except.ok nd => debtLoop i g pi tau s n nd (acc ++ [nd])

/-- `debt_trajectory` as produced by lines 51-66: starts as `[d_0]` and runs
the loop for `horizon` iterations (`horizon = years = 20` in the script). -/
def debt_trajectory (d0 i g pi tau s : ℚ) (horizon : ℕ) : Except DivErr (List ℚ) :=
  debtLoop i g pi tau s horizon d0 [d0]

/-- `years = 20`, the projection horizon fixed at line 50. -/
def years : ℕ := 20

/-- The mathematical recurrence `d_0 = d0`, `d_{t+1} = m * d_t + pd`,
used to state what the loop computes. -/
def dSeq (d0 m pd : ℚ) : ℕ → ℚ
  | 0 => d0
  | t + 1 => m * dSeq d0 m pd t + pd

lemma dSeq_shift (cur m pd : ℚ) : ∀ j, dSeq (m * cur + pd) m pd j = dSeq cur m pd (j + 1)
  | 0 => rfl
  | j + 1 => by
    have ih := dSeq_shift cur m pd j
    simp only [dSeq, ih]

lemma debtLoop_ok (i g pi tau s : ℚ) (hden : (1 + g) * (1 + pi) ≠ 0) :
    ∀ (n : ℕ) (cur : ℚ) (acc : List ℚ),
      debtLoop i g pi tau s n cur acc =
        Except.ok (acc ++ (List.range n).map
          (fun k => dSeq cur ((1 + i) / ((1 + g) * (1 + pi))) (s - tau) (k + 1)))
  | 0, cur, acc => by simp [debtLoop]
  | n + 1, cur, acc => by
    set m : ℚ := (1 + i) / ((1 + g) * (1 + pi)) with hm
    set pd : ℚ := s - tau with hpd
    have hstep : stepE i g pi tau s cur = Except.ok (m * cur + pd) := by
      simp [stepE, hden, hm, hpd]
    have ih := debtLoop_ok i g pi tau s hden n (m * cur + pd) (acc ++ [m * cur + pd])
    have hmap : (List.range n).map (fun k => dSeq (m * cur + pd) m pd (k + 1)) =
        (List.range n).map (fun k => dSeq cur m pd (Nat.succ k + 1)) :=
      List.map_congr_left (fun k _ => dSeq_shift cur m pd (k + 1))
    calc debtLoop i g pi tau s (n + 1) cur acc
        = debtLoop i g pi tau s n (m * cur + pd) (acc ++ [m * cur + pd]) := by
          simp only [debtLoop, hstep]
      _ = Except.ok (acc ++ [m * cur + pd] ++
            (List.range n).map (fun k => dSeq (m * cur + pd) m pd (k + 1))) := ih
      _ = Except.ok (acc ++ (List.range (n + 1)).map (fun k => dSeq cur m pd (k + 1))) := by
          rw [hmap, List.range_succ_eq_map, List.map_cons, List.map_map,
            List.append_assoc, List.singleton_append]
          rfl

lemma debt_trajectory_ok (d0 i g pi tau s : ℚ) (horizon : ℕ)
    (hden : (1 + g) * (1 + pi) ≠ 0) :
    debt_trajectory d0 i g pi tau s horizon =
      Except.ok ((List.range (horizon + 1)).map
        (fun t => dSeq d0 ((1 + i) / ((1 + g) * (1 + pi))) (s - tau) t)) := by
  rw [debt_trajectory, debtLoop_ok i g pi tau s hden horizon d0 [d0]]
  congr 1
  rw [List.range_succ_eq_map, List.map_cons, List.map_map, List.singleton_append]
  rfl

lemma debtLoop_err (i g pi tau s : ℚ) (hden : (1 + g) * (1 + pi) = 0)
    (n : ℕ) (cur : ℚ) (acc : List ℚ) :
    debtLoop i g pi tau s (n + 1) cur acc = Except.error DivErr.divisionByZero := by
  simp [debtLoop, stepE, hden]

lemma getD_range_map (f : ℕ → ℚ) (n t : ℕ) (ht : t < n) :
    ((List.range n).map f).getD t 0 = f t := by
  rw [List.getD_eq_getElem?_getD, List.getElem?_map, List.getElem?_range ht]
  rfl

/-- Column df of Debt Ratio values (line 71): trajectory values scaled back to percent. -/
def debtRatioCol (traj : List ℚ) : List ℚ := traj.map (fun x => x * 100)

/-- Value `final_debt` (line 98): last entry of the Debt Ratio column. -/
def final_debt (traj : List ℚ) : ℚ := ((debtRatioCol traj).getLast?).getD 0

/-- Value `start_debt` (line 99): first entry of the Debt Ratio column. -/
def start_debt (traj : List ℚ) : ℚ := ((debtRatioCol traj).head?).getD 0

/-- Value `delta = final_debt - start_debt` (line 100). -/
def delta (traj : List ℚ) : ℚ := final_debt traj - start_debt traj

/-- Values `r_real = i_pct - pi_pct` and `r_minus_g = r_real - g_pct` (lines 108-109). -/
def r_minus_g (ip pip gp : ℚ) : ℚ := (ip - pip) - gp

/-- Value `primary_bal = tax_pct - s_pct` (line 115). -/
def primary_bal (taxp sp : ℚ) : ℚ := taxp - sp

/-- Label chosen at line 116: Surplus only when `primary_bal > 0`. -/
def bal_label (taxp sp : ℚ) : String :=
  if primary_bal taxp sp > 0 then "Primary Surplus" else "Primary Deficit"

/-- Metric color chosen at line 117. -/
def bal_color (taxp sp : ℚ) : String :=
  if primary_bal taxp sp > 0 then "normal" else "inverse"

/-- Outcome of the analysis block (lines 132-137). -/
inductive Verdict : Type
  | Crisis
  | Rising
  | Sustainable
deriving DecidableEq

/-- Classification chain of lines 132-137:
`if final_debt > 150` then Crisis, `elif final_debt > start_debt` then Rising,
else Sustainable (all in percentage units). -/
def classify (fd sd : ℚ) : Verdict :=
  if fd > 150 then Verdict.Crisis
  else if fd > sd then Verdict.Rising
  else Verdict.Sustainable

/-- Closed-form restatement of the projection as a mathematical function of
its arguments alone, used to express that the loop has no hidden state. -/
def projectFun (d0 i g pi tau s : ℚ) (horizon : ℕ) : Except DivErr (List ℚ) :=
  if (1 + g) * (1 + pi) = 0 ∧ horizon ≠ 0 then Except.error DivErr.divisionByZero
  else Except.ok ((List.range (horizon + 1)).map
    (fun t => dSeq d0 ((1 + i) / ((1 + g) * (1 + pi))) (s - tau) t))

lemma final_debt_eq (traj : List ℚ) (n : ℕ) (h : traj.length = n + 1) :
    final_debt traj = traj.getD n 0 * 100 := by
  have hn : n < traj.length := by omega
  rw [final_debt, debtRatioCol, List.getLast?_eq_getElem?, List.length_map, h]
  simp only [Nat.add_sub_cancel, List.getElem?_map, List.getElem?_eq_getElem hn,
    List.getD_eq_getElem?_getD]
  rfl

lemma start_debt_eq (traj : List ℚ) (hne : traj ≠ []) :
    start_debt traj = traj.getD 0 0 * 100 := by
  cases traj with
  | nil => exact absurd rfl hne
  | cons a l => rfl

lemma dSeq_const (d0 : ℚ) : ∀ t, dSeq d0 1 0 t = d0
  | 0 => rfl
  | t + 1 => by simp [dSeq, dSeq_const d0 t]

/-- C1: the Projector produces the trajectory by the exact linear recurrence
`d_t = ((1+i)/((1+g)(1+pi))) * d_(t-1) + (s - tau)` with `d_0` the initial
ratio, returning the full sequence of length `horizon + 1` whose element at
index 0 equals the initial ratio. -/
theorem trajectory_linear_recurrence (d0 i g pi tau s : ℚ) (horizon : ℕ)
    (hden : (1 + g) * (1 + pi) ≠ 0) :
    ∃ l, debt_trajectory d0 i g pi tau s horizon = Except.ok l ∧
      l.length = horizon + 1 ∧
      l.getD 0 0 = d0 ∧
      ∀ t, t < horizon →
        l.getD (t + 1) 0 =
          ((1 + i) / ((1 + g) * (1 + pi))) * l.getD t 0 + (s - tau) := by
  refine ⟨_, debt_trajectory_ok d0 i g pi tau s horizon hden, ?_, ?_, ?_⟩
  · simp
  · rw [getD_range_map _ _ 0 (Nat.succ_pos horizon)]
    rfl
  · intro t ht
    rw [getD_range_map _ _ (t + 1) (by omega), getD_range_map _ _ t (by omega)]
    rfl

/-- Witness: the recurrence description instantiated at the reference scenario. -/
theorem trajectory_linear_recurrence_witness :
    ((1 + (2:ℚ)/100) * (1 + 25/1000) ≠ 0) ∧
    (∃ l, debt_trajectory (98/100) (45/1000) (2/100) (25/1000) (30/100) (32/100) years =
        Except.ok l ∧
      l.length = years + 1 ∧
      l.getD 0 0 = 98/100 ∧
      ∀ t, t < years →
        l.getD (t + 1) 0 =
          ((1 + 45/1000) / ((1 + 2/100) * (1 + 25/1000))) * l.getD t 0 + (32/100 - 30/100)) :=
  ⟨by norm_num, trajectory_linear_recurrence _ _ _ _ _ _ _ (by norm_num)⟩

/-- C3: when `(1+g)*(1+pi) = 0` the projection fails with a division-by-zero
error and returns no output sequence at all. -/
theorem div_zero_raises (d0 i g pi tau s : ℚ) (horizon : ℕ)
    (hden : (1 + g) * (1 + pi) = 0) (hh : 1 ≤ horizon) :
    debt_trajectory d0 i g pi tau s horizon = Except.error DivErr.divisionByZero := by
  obtain ⟨n, rfl⟩ : ∃ n, horizon = n + 1 := ⟨horizon - 1, by omega⟩
  exact debtLoop_err i g pi tau s hden n d0 [d0]

/-- Witness: division-by-zero raised at g = -1, pi = 0 over the 20-year horizon. -/
theorem div_zero_raises_witness :
    ((1 + (-1:ℚ)) * (1 + 0) = 0) ∧ 1 ≤ years ∧
    debt_trajectory (98/100) (45/1000) (-1) 0 (30/100) (32/100) years =
      Except.error DivErr.divisionByZero :=
  ⟨by norm_num, by decide, div_zero_raises _ _ _ _ _ _ _ (by norm_num) (by decide)⟩

/-- C5: in the identity scenario (i = g, pi = 0, tau = s) every element of a
produced trajectory equals the initial ratio. -/
theorem identity_scenario_constant (d0 i tau : ℚ) (horizon : ℕ) (l : List ℚ)
    (hl : debt_trajectory d0 i i 0 tau tau horizon = Except.ok l) :
    ∀ x ∈ l, x = d0 := by
  by_cases hden : (1 + i) * (1 + 0) = 0
  · cases horizon with
    | zero =>
      simp only [debt_trajectory, debtLoop] at hl
      obtain rfl : [d0] = l := Except.ok.inj hl
      intro x hx
      simpa using hx
    | succ n =>
      rw [debt_trajectory, debtLoop_err i i 0 tau tau hden n d0 [d0]] at hl
      exact absurd hl (by simp)
  · have h1 : (1 + i) ≠ 0 := fun h => hden (by rw [h]; ring)
    have hm1 : (1 + i) / ((1 + i) * (1 + 0)) = 1 := by
      rw [add_zero, mul_one, div_self h1]
    rw [debt_trajectory_ok _ _ _ _ _ _ _ hden, hm1, sub_self] at hl
    obtain rfl := (Except.ok.inj hl).symm
    intro x hx
    obtain ⟨t, -, rfl⟩ := List.mem_map.1 hx
    exact dSeq_const d0 t

/-- Witness: a constant trajectory produced in the identity scenario. -/
theorem identity_scenario_constant_witness :
    (debt_trajectory (98/100) (2/100) (2/100) 0 (30/100) (30/100) years =
      Except.ok (List.replicate (years + 1) ((98:ℚ)/100))) ∧
    ∀ x ∈ List.replicate (years + 1) ((98:ℚ)/100), x = 98/100 := by
  have hden : (1 + (2:ℚ)/100) * (1 + 0) ≠ 0 := by norm_num
  have hok : debt_trajectory (98/100) (2/100) (2/100) 0 (30/100) (30/100) years =
      Except.ok (List.replicate (years + 1) ((98:ℚ)/100)) := by
    rw [debt_trajectory_ok _ _ _ _ _ _ _ hden]
    congr 1
    have hm1 : (1 + (2:ℚ)/100) / ((1 + 2/100) * (1 + 0)) = 1 := by norm_num
    rw [hm1, sub_self]
    refine List.eq_replicate_iff.2 ⟨by simp, ?_⟩
    intro b hb
    obtain ⟨t, -, rfl⟩ := List.mem_map.1 hb
    exact dSeq_const _ t
  exact ⟨hok, identity_scenario_constant (98/100) (2/100) (30/100) years _ hok⟩

/-- C8: the projection is deterministic - the loop computes a closed-form
mathematical function of the six inputs and the horizon alone, so any two
invocations on identical inputs produce the identical sequence; there is no
randomness and no hidden state. -/
theorem project_deterministic (d0 i g pi tau s : ℚ) (horizon : ℕ) :
    debt_trajectory d0 i g pi tau s horizon = projectFun d0 i g pi tau s horizon := by
  by_cases hden : (1 + g) * (1 + pi) = 0
  · cases horizon with
    | zero =>
      rw [projectFun, if_neg (fun h => h.2 rfl)]
      show Except.ok [d0] = _
      simp [List.range_succ, dSeq]
    | succ n =>
      rw [debt_trajectory, debtLoop_err i g pi tau s hden n d0 [d0], projectFun,
        if_pos ⟨hden, Nat.succ_ne_zero n⟩]
  · rw [debt_trajectory_ok _ _ _ _ _ _ _ hden, projectFun,
      if_neg (fun h => hden h.1)]

/-- C2 counterexample: with final and initial ratio both equal to 200 percent,
the code classifies Crisis, not Sustainable as the claim requires for
equal ratios. -/
theorem classify_equal_ratios_crisis :
    classify 200 200 = Verdict.Crisis ∧ classify 200 200 ≠ Verdict.Sustainable := by
  constructor <;> decide

/-- C2 amended: Crisis exactly when final_ratio > 150 (percentage units);
below that threshold a strict rise gives Rising and otherwise Sustainable;
equal final and initial ratios are never Rising, and are Sustainable whenever
final_ratio ≤ 150; a final_ratio of exactly 150 is never Crisis. -/
theorem classification_rules (fd sd : ℚ) :
    (classify fd sd = Verdict.Crisis ↔ 150 < fd) ∧
    (fd ≤ 150 → sd < fd → classify fd sd = Verdict.Rising) ∧
    (fd ≤ 150 → fd ≤ sd → classify fd sd = Verdict.Sustainable) ∧
    (fd = sd → classify fd sd ≠ Verdict.Rising) ∧
    (fd = sd → fd ≤ 150 → classify fd sd = Verdict.Sustainable) ∧
    (fd = 150 → classify fd sd ≠ Verdict.Crisis) := by
  refine ⟨?_, ?_, ?_, ?_, ?_, ?_⟩ <;>
    [skip; intro h1 h2; intro h1 h2; intro h1; intro h1 h2; intro h1] <;>
    unfold classify <;> split_ifs <;>
    simp_all <;> linarith

/-- Witness: the amended classification rules at final = initial = 100. -/
theorem classification_rules_witness :
    ((100:ℚ) = 100) ∧ ((100:ℚ) ≤ 150) ∧ classify 100 100 = Verdict.Sustainable :=
  ⟨rfl, by norm_num, (classification_rules 100 100).2.2.2.2.1 rfl (by norm_num)⟩

/-- C4 counterexample: at the reference inputs the first step of the code's
trajectory equals 104501/104550 (about 0.9995313), which differs from 0.9996
by about 6.9e-5, more than the claimed 1e-6 tolerance. -/
theorem first_step_off_by_more_than_1e6 :
    ((debt_trajectory (98/100) (45/1000) (2/100) (25/1000) (30/100) (32/100)
        years).toOption.getD []).getD 1 0 = 104501/104550 ∧
    ¬ |(104501:ℚ)/104550 - 9996/10000| ≤ 1/1000000 := by
  constructor
  · rw [debt_trajectory_ok _ _ _ _ _ _ _ (by norm_num)]
    show ((List.range (years + 1)).map _).getD 1 0 = _
    rw [getD_range_map _ _ 1 (by norm_num [years])]
    show (1 + 45/1000) / ((1 + 2/100) * (1 + 25/1000)) * (98/100) + (32/100 - 30/100) = _
    norm_num
  · rw [not_le, lt_abs]
    right
    norm_num

/-- C4 amended: at the reference inputs the first step of the trajectory is
within 1e-4 (not 1e-6) of 0.9996; its exact value is 104501/104550. -/
theorem first_step_within_1e4 :
    |((debt_trajectory (98/100) (45/1000) (2/100) (25/1000) (30/100) (32/100)
        years).toOption.getD []).getD 1 0 - 9996/10000| ≤ 1/10000 := by
  have h : ((debt_trajectory (98/100) (45/1000) (2/100) (25/1000) (30/100) (32/100)
      years).toOption.getD []).getD 1 0 = 104501/104550 := by
    rw [debt_trajectory_ok _ _ _ _ _ _ _ (by norm_num)]
    show ((List.range (years + 1)).map _).getD 1 0 = _
    rw [getD_range_map _ _ 1 (by norm_num [years])]
    show (1 + 45/1000) / ((1 + 2/100) * (1 + 25/1000)) * (98/100) + (32/100 - 30/100) = _
    norm_num
  rw [h, abs_le]
  constructor <;> norm_num

lemma dSeq_nonneg (d0 m pd : ℚ) (hd0 : 0 ≤ d0) (hm : 1 < m) (hpd : 0 ≤ pd) :
    ∀ t, 0 ≤ dSeq d0 m pd t
  | 0 => hd0
  | t + 1 => by
    have ih := dSeq_nonneg d0 m pd hd0 hm hpd t
    show 0 ≤ m * dSeq d0 m pd t + pd
    nlinarith

lemma dSeq_step_le (d0 m pd : ℚ) (hd0 : 0 ≤ d0) (hm : 1 < m) (hpd : 0 ≤ pd)
    (t : ℕ) : dSeq d0 m pd t ≤ dSeq d0 m pd (t + 1) := by
  have h0 := dSeq_nonneg d0 m pd hd0 hm hpd t
  show dSeq d0 m pd t ≤ m * dSeq d0 m pd t + pd
  nlinarith

/-- C6: when the multiplier (1+i)/((1+g)(1+pi)) exceeds 1 and the primary
deficit s - tau is nonnegative, the trajectory produced from a nonnegative
initial ratio is non-decreasing at every step. -/
theorem divergent_monotone (d0 i g pi tau s : ℚ) (horizon : ℕ)
    (hd0 : 0 ≤ d0) (hm : 1 < (1 + i) / ((1 + g) * (1 + pi))) (hpd : 0 ≤ s - tau) :
    ∃ l, debt_trajectory d0 i g pi tau s horizon = Except.ok l ∧
      ∀ t, t + 1 < l.length → l.getD t 0 ≤ l.getD (t + 1) 0 := by
  have hden : (1 + g) * (1 + pi) ≠ 0 := by
    intro h
    rw [h, div_zero] at hm
    linarith
  refine ⟨_, debt_trajectory_ok d0 i g pi tau s horizon hden, ?_⟩
  intro t ht
  rw [List.length_map, List.length_range] at ht
  rw [getD_range_map _ _ t (by omega), getD_range_map _ _ (t + 1) (by omega)]
  exact dSeq_step_le _ _ _ hd0 hm hpd t

/-- Witness: a non-decreasing trajectory with multiplier above 1 and a
primary deficit. -/
theorem divergent_monotone_witness :
    ((0:ℚ) ≤ 98/100) ∧ (1 < (1 + (5:ℚ)/100) / ((1 + 2/100) * (1 + 0))) ∧
    ((0:ℚ) ≤ 32/100 - 30/100) ∧
    (∃ l, debt_trajectory (98/100) (5/100) (2/100) 0 (30/100) (32/100) years =
        Except.ok l ∧
      ∀ t, t + 1 < l.length → l.getD t 0 ≤ l.getD (t + 1) 0) :=
  ⟨by norm_num, by norm_num, by norm_num,
    divergent_monotone _ _ _ _ _ _ years (by norm_num) (by norm_num) (by norm_num)⟩

/-- C7: the summary metrics of the analyzer: final_debt is the last element of
the trajectory (scaled to percent), delta is final minus the trajectory's
first element, r_minus_g is (i - pi) - g over the same rate inputs the
projection received (percent units, i.e. 100 times the fraction values), and
primary_bal is tau - s (positive = surplus, again 100 times the fractions). -/
theorem analyzer_metrics (d0p ip gp pip taxp sp : ℚ)
    (hden : (1 + gp / 100) * (1 + pip / 100) ≠ 0) :
    ∃ l, debt_trajectory (d0p / 100) (ip / 100) (gp / 100) (pip / 100) (taxp / 100)
        (sp / 100) years = Except.ok l ∧
      final_debt l = l.getD years 0 * 100 ∧
      delta l = final_debt l - l.getD 0 0 * 100 ∧
      r_minus_g ip pip gp = ((ip / 100 - pip / 100) - gp / 100) * 100 ∧
      primary_bal taxp sp = (taxp / 100 - sp / 100) * 100 := by
  refine ⟨_, debt_trajectory_ok _ _ _ _ _ _ _ hden, ?_, ?_, ?_, ?_⟩
  · exact final_debt_eq _ years (by simp)
  · rw [delta, start_debt_eq _ (by simp)]
  · rw [r_minus_g]
    ring
  · rw [primary_bal]
    ring

/-- Witness: analyzer metrics at the reference scenario inputs (in percent). -/
theorem analyzer_metrics_witness :
    ((1 + (2:ℚ) / 100) * (1 + (25/10) / 100) ≠ 0) ∧
    (∃ l, debt_trajectory (98 / 100) ((45/10) / 100) (2 / 100) ((25/10) / 100)
        (30 / 100) (32 / 100) years = Except.ok l ∧
      final_debt l = l.getD years 0 * 100 ∧
      delta l = final_debt l - l.getD 0 0 * 100 ∧
      r_minus_g (45/10) (25/10) 2 = ((45/10) / 100 - (25/10) / 100 - 2 / 100) * 100 ∧
      primary_bal 30 32 = (30 / 100 - 32 / 100) * 100) :=
  ⟨by norm_num, analyzer_metrics 98 (45/10) 2 (25/10) 30 32 (by norm_num)⟩

/-- C9: every growth and inflation value reachable through the sidebar sliders
(g in [-5, 10] percent, pi in [-2, 15] percent) makes the denominator
(1 + g/100) * (1 + pi/100) at least 0.95 * 0.98 > 0, so the unguarded division
in the recurrence never divides by zero and a full trajectory is returned. -/
theorem sidebar_denominator_positive (gp pip : ℚ)
    (hg1 : -5 ≤ gp) (hg2 : gp ≤ 10) (hp1 : -2 ≤ pip) (hp2 : pip ≤ 15) :
    (95/100 : ℚ) * (98/100) ≤ (1 + gp / 100) * (1 + pip / 100) ∧
    ∀ d0 i tau s : ℚ, ∃ l,
      debt_trajectory d0 i (gp / 100) (pip / 100) tau s years = Except.ok l := by
  have h1 : (95/100 : ℚ) ≤ 1 + gp / 100 := by linarith
  have h2 : (98/100 : ℚ) ≤ 1 + pip / 100 := by linarith
  have hlow : (95/100 : ℚ) * (98/100) ≤ (1 + gp / 100) * (1 + pip / 100) := by
    nlinarith
  have hpos : (0:ℚ) < (1 + gp / 100) * (1 + pip / 100) := by nlinarith
  exact ⟨hlow, fun d0 i tau s =>
    ⟨_, debt_trajectory_ok d0 i (gp / 100) (pip / 100) tau s years (ne_of_gt hpos)⟩⟩

/-- Witness: the default slider values g = 2, pi = 2.5 give a positive
denominator and a full trajectory. -/
theorem sidebar_denominator_positive_witness :
    (-5 ≤ (2:ℚ)) ∧ ((2:ℚ) ≤ 10) ∧ (-2 ≤ (25/10:ℚ)) ∧ ((25/10:ℚ) ≤ 15) ∧
    ((95/100 : ℚ) * (98/100) ≤ (1 + 2 / 100) * (1 + (25/10) / 100) ∧
    ∀ d0 i tau s : ℚ, ∃ l,
      debt_trajectory d0 i ((2:ℚ) / 100) ((25/10) / 100) tau s years = Except.ok l) :=
  ⟨by norm_num, by norm_num, by norm_num, by norm_num,
    sidebar_denominator_positive 2 (25/10) (by norm_num) (by norm_num) (by norm_num)
      (by norm_num)⟩

/-- C10: when the tax share equals the spending share the primary balance is
zero, and the strict surplus test sends it to the deficit branch: the metric
is labelled Primary Deficit with inverse coloring. -/
theorem zero_balance_deficit_label (taxp sp : ℚ) (h : taxp = sp) :
    primary_bal taxp sp = 0 ∧ bal_label taxp sp = "Primary Deficit" ∧
    bal_color taxp sp = "inverse" := by
  subst h
  refine ⟨sub_self _, ?_, ?_⟩ <;> simp [bal_label, bal_color, primary_bal]

/-- Witness: tax = spending = 30 percent is reported as Primary Deficit. -/
theorem zero_balance_deficit_label_witness :
    ((30:ℚ) = 30) ∧ (primary_bal 30 30 = 0 ∧ bal_label 30 30 = "Primary Deficit" ∧
      bal_color 30 30 = "inverse") :=
  ⟨rfl, zero_balance_deficit_label 30 30 rfl⟩

end DebtApp
